import Mathlib

/-!
Verification of the POWER8 OCC hwmon i2c driver
(`drivers/hwmon/power8_occ_i2c.c`) against its natural-language
specification.

The development shallowly embeds the driver's protocol core:

* the command-frame encoder of `occ_send_cmd` (two 32-bit words, byte-wise
  checksum),
* the register-access layer (`occ_putscom` / `occ_getscomb`) over an
  abstract i2c bus,
* the SCOM drive sequence of `occ_send_cmd` and the response fetch loop of
  `occ_get_all`,
* the response parser (`parse_occ_response`), the sensor-storage manager
  (`occ_renew_sensor`, `deinit_occ_resp_buf`), and
* the timed refresh cache (`occ_update_device`).

Machine integers are modelled as `Nat` with explicit `% 2^32` / `% 2^16`
truncation where the C code relies on fixed-width wraparound.  Kernel
allocations are modelled as always succeeding (the OOM branches are out of
scope for the checked claims).  `kfree` of a still-referenced pointer is
modelled by a three-state pointer value (`null` / `live` / `dangling`) so
that use-after-free situations remain observable: C's `kfree` does not
null out the caller's pointer.
-/

namespace OccI2c

/-! ### Byte-level helpers -/

/-- The byte at (little-endian) byte position `i` of a machine word,
mirroring the C idiom `(w >> (i * 8)) & 0xFF`. -/
def nth_byte (w i : Nat) : Nat := (w >>> (i * 8)) % 256

/-- Big-endian 16-bit read at byte offset `i` of a buffer, as performed by
`be16_to_cpup((const __be16 *)&data[i])` on the little-endian BMC host. -/
def be16_at (data : Nat → Nat) (i : Nat) : Nat := data i * 256 + data (i + 1)

/-- Big-endian 32-bit read at byte offset `i` of a buffer
(`be32_to_cpup`). -/
def be32_at (data : Nat → Nat) (i : Nat) : Nat :=
  ((data i * 256 + data (i + 1)) * 256 + data (i + 2)) * 256 + data (i + 3)

/-- The value obtained by `memcpy`ing the listed bytes into the low end of
a little-endian machine word: element `0` lands in the least significant
byte. -/
def bytesLE (l : List Nat) : Nat := l.foldr (fun b acc => b + 256 * acc) 0

/-! ### Command-frame encoding (`occ_send_cmd`, lines 555-570)

The C code targets a little-endian BMC, so `cpu_to_le16(length)` is the
identity and is not reproduced.  `cmd2` is an uninitialized stack word
into which `memcpy(&cmd2, data, length)` copies only the first `length`
bytes; the `junk` parameter stands for the uninitialized remainder.  For
`length = 0` the C shift `cmd2 <<= 32` is formally undefined behaviour; we
use the mathematical shift (the behaviour of the ARM BMC target), under
which the uninitialized bytes are always shifted out for `length ≤ 2`. -/

/-- `cmd1 = (seq << 24) | (type << 16) | length` truncated to 32 bits. -/
def occ_cmd1 (seq typ length : Nat) : Nat :=
  ((seq <<< 24) ||| (typ <<< 16) ||| length) % 2 ^ 32

/-- `memcpy(&cmd2, data, length); cmd2 <<= ((4 - length) * 8);` —
the payload word before the checksum is ORed in. -/
def occ_cmd2_payload (data : List Nat) (length junk : Nat) : Nat :=
  ((bytesLE (data.take length) + junk * 2 ^ (8 * length)) <<< ((4 - length) * 8)) % 2 ^ 32

/-- The checksum accumulation loop: a `uint16_t` running sum of the four
bytes of `cmd1` followed by the four bytes of `cmd2`, wrapping modulo
`2^16` at every addition. -/
def occ_checksum (cmd1 cmd2 : Nat) : Nat :=
  (List.range 4).foldl (fun c i => (c + nth_byte cmd2 i) % 65536)
    ((List.range 4).foldl (fun c i => (c + nth_byte cmd1 i) % 65536) 0)

/-- The checksum value the encoder embeds for the given command. -/
def occ_cmd_checksum (seq typ length : Nat) (data : List Nat) (junk : Nat) : Nat :=
  occ_checksum (occ_cmd1 seq typ length) (occ_cmd2_payload data length junk)

/-- `cmd2 |= checksum << ((2 - length) * 8);` — the finished second word
of the command frame. -/
def occ_cmd2_final (seq typ length : Nat) (data : List Nat) (junk : Nat) : Nat :=
  (occ_cmd2_payload data length junk |||
    (occ_cmd_checksum seq typ length data junk <<< ((2 - length) * 8))) % 2 ^ 32

/-- Specification-side formula: the plain byte-wise sum of the four bytes
of a word ("sum of every bytes of cmd1, cmd2"). -/
def occ_word_bytes_sum (w : Nat) : Nat :=
  nth_byte w 0 + nth_byte w 1 + nth_byte w 2 + nth_byte w 3

/-- Specification-side decoder: read the 16-bit checksum back out of the
finished `cmd2` at the byte position `(2 - length)` used by the encoder. -/
def occ_embedded_checksum (cmd2_final length : Nat) : Nat :=
  nth_byte cmd2_final (2 - length) + 256 * nth_byte cmd2_final (3 - length)

/-! ### Driver constants -/

def OCC_DATA_MAX : Nat := 4096
def I2C_READ_ERROR : Int := 1
def I2C_WRITE_ERROR : Int := 2
/-- Linux `EINVAL`. -/
def EINVAL : Int := 22
def ATTN_DATA : Nat := 0x0006B035
def OCB_ADDRESS : Nat := 0x0006B070
def OCB_DATA : Nat := 0x0006B075
def OCB_STATUS_CONTROL_AND : Nat := 0x0006B072
def OCB_STATUS_CONTROL_OR : Nat := 0x0006B073
def OCC_COMMAND_ADDR : Nat := 0xFFFF6000
def OCC_RESPONSE_ADDR : Nat := 0xFFFF7000
def RESP_DATA_LENGTH : Nat := 3
def RESP_HEADER_OFFSET : Nat := 5
def SENSOR_STR_OFFSET : Nat := 37
def SENSOR_BLOCK_NUM_OFFSET : Nat := 43
def SENSOR_BLOCK_OFFSET : Nat := 45

/-! ### Register access layer over an abstract i2c bus

The bus is an oracle giving, for the `k`-th `i2c_master_send`, the byte
count it reports, and for the `k`-th `i2c_master_recv`, the reported byte
count and the received bytes.  `occ_putscom` performs one 12-byte send;
`occ_getscomb` performs one 4-byte send followed by one 8-byte receive
whose bytes are reversed into `data[offset..offset+7]`.  Buffers are
modelled as total functions `Nat → Nat` from byte offset to byte value. -/

structure I2CBus where
  sendRet : Nat → Int
  recvRet : Nat → Int
  recvData : Nat → Nat → Nat

/-- `occ_putscom`: one 12-byte i2c write; `I2C_WRITE_ERROR` on a short
transfer.  The register address and payload words do not influence the
modelled bus outcome but are kept so call sites mirror the source. -/
def occ_putscom (bus : I2CBus) (k : Nat) (_address _data0 _data1 : Nat) : Int :=
  if bus.sendRet k ≠ 12 then I2C_WRITE_ERROR else 0

/-- `occ_getscomb`: write the 4-byte shifted address (send `sk`), read 8
bytes (receive `rk`), and deposit them byte-reversed at
`data[offset..offset+7]` (`data[offset + i] = buf[7 - i]`). -/
def occ_getscomb (bus : I2CBus) (sk rk : Nat) (_address : Nat) (data : Nat → Nat)
    (offset : Nat) : Int × (Nat → Nat) :=
  if bus.sendRet sk ≠ 4 then (-I2C_WRITE_ERROR, data)
  else if bus.recvRet rk ≠ 8 then (-I2C_READ_ERROR, data)
  else (0, fun a => if offset ≤ a ∧ a < offset + 8 then bus.recvData rk (7 - (a - offset)) else data a)

/-- `occ_send_cmd` (lines 552-590): encode the command words, drive the
fixed SCOM sequence — seven `occ_putscom` calls whose results the C code
assigns to nothing — then one `occ_getscomb` into `resp[0..7]` whose
result is likewise discarded, and return `resp[2]`.  `junk` stands for the
uninitialized high bytes of the `cmd2` stack word. -/
def occ_send_cmd (bus : I2CBus) (seq typ length : Nat) (data : List Nat) (junk : Nat)
    (resp : Nat → Nat) : Nat × (Nat → Nat) :=
  let cmd1 := occ_cmd1 seq typ length
  let cmd2 := occ_cmd2_final seq typ length data junk
  let _r0 := occ_putscom bus 0 OCB_STATUS_CONTROL_OR 0x08000000 0x00000000
  let _r1 := occ_putscom bus 1 OCB_STATUS_CONTROL_AND 0xFBFFFFFF 0xFFFFFFFF
  let _r2 := occ_putscom bus 2 OCB_ADDRESS OCC_COMMAND_ADDR 0
  let _r3 := occ_putscom bus 3 OCB_ADDRESS OCC_COMMAND_ADDR 0
  let _r4 := occ_putscom bus 4 OCB_DATA cmd1 cmd2
  let _r5 := occ_putscom bus 5 ATTN_DATA 0x01010000 0
  let _r6 := occ_putscom bus 6 OCB_ADDRESS OCC_RESPONSE_ADDR 0
  let g := occ_getscomb bus 7 0 OCB_DATA resp 0
  (g.2 2, g.2)

/-! ### Sensor data model

`kfree` in C frees the pointee but leaves the pointer value unchanged, so
a typed record array is modelled as a three-state value: `null` (a NULL
pointer), `live a` (a valid allocation with contents `a`), or `dangling`
(a non-NULL pointer whose allocation has been freed without the field
being cleared).  Allocation (`kcalloc`) is modelled as always succeeding;
the driver's OOM branches are outside the checked claims. -/

inductive SensorT
  | freq
  | temp
  | power
  | caps
deriving DecidableEq

inductive PtrState (α : Type)
  | null
  | live (val : α)
  | dangling
deriving DecidableEq

/-- The observable kind of a C pointer value: NULL, valid, or freed but
not nulled. -/
inductive PtrKind
  | nullPtr
  | livePtr
  | danglingPtr
deriving DecidableEq

def PtrState.kind : PtrState α → PtrKind
  | .null => .nullPtr
  | .live _ => .livePtr
  | .dangling => .danglingPtr

structure OccSensor where
  sensor_id : Nat
  value : Nat
deriving DecidableEq

structure PowerSensor where
  sensor_id : Nat
  update_tag : Nat
  accumulator : Nat
  value : Nat
deriving DecidableEq

structure CapsSensor where
  curr_powercap : Nat
  curr_powerreading : Nat
  norm_powercap : Nat
  max_powercap : Nat
  min_powercap : Nat
  user_powerlimit : Nat
deriving DecidableEq

structure SensorDataBlock where
  sensor_type : List Nat
  reserved0 : Nat
  sensor_format : Nat
  sensor_length : Nat
  num_of_sensors : Nat
  sensor : PtrState (List OccSensor)
  power : PtrState (List PowerSensor)
  caps : PtrState (List CapsSensor)
deriving DecidableEq

structure OccPollHeader where
  status : Nat
  ext_status : Nat
  occs_present : Nat
  config : Nat
  occ_state : Nat
  reserved0 : Nat
  reserved1 : Nat
  error_log_id : Nat
  error_log_addr_start : Nat
  error_log_length : Nat
  reserved2 : Nat
  reserved3 : Nat
  occ_code_level : List Nat
  sensor_eye_catcher : List Nat
  sensor_block_num : Nat
  sensor_data_version : Nat
deriving DecidableEq

structure OccResponse where
  sequence_num : Nat
  cmd_type : Nat
  rtn_status : Nat
  data_length : Nat
  header : OccPollHeader
  blocks : Option (List SensorDataBlock)
  chk_sum : Nat
  temp_block_id : Int
  freq_block_id : Int
  power_block_id : Int
  caps_block_id : Int
deriving DecidableEq

/-- A `kcalloc`ed `sensor_data_block`: all bytes zero, so all three
record pointers are NULL. -/
def emptyBlock : SensorDataBlock :=
  ⟨List.replicate 4 0, 0, 0, 0, 0, .null, .null, .null⟩

def emptyHeader : OccPollHeader :=
  ⟨0, 0, 0, 0, 0, 0, 0, 0, 0, 0, 0, 0, List.replicate 16 0, List.replicate 6 0, 0, 0⟩

/-- The `occ_response` after `memset(p, 0, sizeof(*p))` followed by
setting the four block ids to `-1`: exactly the state `deinit_occ_resp_buf`
leaves behind (and the probe-time state once `occ_create_hwmon_attribute`
has initialized the ids). -/
def emptyOccResponse : OccResponse :=
  { sequence_num := 0, cmd_type := 0, rtn_status := 0, data_length := 0,
    header := emptyHeader, blocks := none, chk_sum := 0,
    temp_block_id := -1, freq_block_id := -1, power_block_id := -1, caps_block_id := -1 }

/-- `deinit_occ_resp_buf` (lines 142-165).  With a NULL block list it
returns immediately, leaving the structure untouched.  Otherwise it
frees every per-block array and the block list (implicit in the value
semantics), zeroes the whole structure and sets the four ids to `-1` —
i.e. it produces exactly `emptyOccResponse`. -/
def deinit_occ_resp_buf (p : OccResponse) : OccResponse :=
  match p.blocks with
  | none => p
  | some _ => emptyOccResponse

def blocksD (resp : OccResponse) : List SensorDataBlock := resp.blocks.getD []

def blockAt (resp : OccResponse) (i : Nat) : SensorDataBlock :=
  (blocksD resp).getD i emptyBlock

/-- Write through `resp->blocks[i]`.  A NULL block list is left unchanged
(the C code would fault; this situation does not arise in the verified
scenarios). -/
def modifyBlock (resp : OccResponse) (i : Nat) (f : SensorDataBlock → SensorDataBlock) :
    OccResponse :=
  { resp with blocks := resp.blocks.map (fun bs => bs.set i (f (bs.getD i emptyBlock))) }

def sensor_block_id (resp : OccResponse) (t : SensorT) : Int :=
  match t with
  | .temp => resp.temp_block_id
  | .freq => resp.freq_block_id
  | .power => resp.power_block_id
  | .caps => resp.caps_block_id

/-- `occ_get_sensor_by_type` (lines 233-263): the pointer value (as a
`PtrKind`) handed back for the requested sensor type — NULL when the
block list is NULL or the type's block id is the `-1` sentinel, otherwise
the stored field of the indexed block (which may be a dangling pointer). -/
def occ_get_sensor_by_type (resp : OccResponse) (t : SensorT) : PtrKind :=
  if resp.blocks = none then .nullPtr
  else match t with
    | .temp => if resp.temp_block_id = -1 then .nullPtr
               else (blockAt resp resp.temp_block_id.toNat).sensor.kind
    | .freq => if resp.freq_block_id = -1 then .nullPtr
               else (blockAt resp resp.freq_block_id.toNat).sensor.kind
    | .power => if resp.power_block_id = -1 then .nullPtr
                else (blockAt resp resp.power_block_id.toNat).power.kind
    | .caps => if resp.caps_block_id = -1 then .nullPtr
               else (blockAt resp resp.caps_block_id.toNat).caps.kind

/-- `kfree` of a live allocation leaves a dangling pointer value;
`kfree(NULL)` is a no-op; a second `kfree` of the same pointer is not
modelled further. -/
def kfree_mark : PtrState α → PtrState α
  | .live _ => .dangling
  | p => p

/-- Effect of `kfree(occ_get_sensor_by_type(resp, t))`: the pointee of
`blocks[<t's id>].<t's field>` is freed, but neither the field nor the
block id is cleared. -/
def kfree_sensor (resp : OccResponse) (t : SensorT) : OccResponse :=
  if resp.blocks = none then resp
  else match t with
    | .temp => if resp.temp_block_id = -1 then resp
               else modifyBlock resp resp.temp_block_id.toNat
                 (fun bl => { bl with sensor := kfree_mark bl.sensor })
    | .freq => if resp.freq_block_id = -1 then resp
               else modifyBlock resp resp.freq_block_id.toNat
                 (fun bl => { bl with sensor := kfree_mark bl.sensor })
    | .power => if resp.power_block_id = -1 then resp
                else modifyBlock resp resp.power_block_id.toNat
                  (fun bl => { bl with power := kfree_mark bl.power })
    | .caps => if resp.caps_block_id = -1 then resp
               else modifyBlock resp resp.caps_block_id.toNat
                 (fun bl => { bl with caps := kfree_mark bl.caps })

/-- `occ_renew_sensor` (lines 265-341).  An empty block (zero records or
zero record length) frees the old storage and returns `-1`.  Otherwise,
per type: if the old pointer is NULL or the record count changed, free the
old array and `kcalloc` a zero-initialized array of `num_of_sensors`
records at `blocks[block]` (allocation modelled as succeeding, so the
`-ENOMEM` teardown branch is not taken); if the count is unchanged,
change nothing. -/
def occ_renew_sensor (resp : OccResponse) (sensor_length num_of_sensors : Nat)
    (t : SensorT) (block : Nat) : Int × OccResponse :=
  let sensor := occ_get_sensor_by_type resp t
  if num_of_sensors = 0 ∨ sensor_length = 0 then
    (-1, kfree_sensor resp t)
  else
    match t with
    | .temp =>
      if sensor = .nullPtr ∨
          num_of_sensors ≠ (blockAt resp resp.temp_block_id.toNat).num_of_sensors then
        (0, modifyBlock (kfree_sensor resp .temp) block
          (fun bl => { bl with sensor := .live (List.replicate num_of_sensors ⟨0, 0⟩) }))
      else (0, resp)
    | .freq =>
      if sensor = .nullPtr ∨
          num_of_sensors ≠ (blockAt resp resp.freq_block_id.toNat).num_of_sensors then
        (0, modifyBlock (kfree_sensor resp .freq) block
          (fun bl => { bl with sensor := .live (List.replicate num_of_sensors ⟨0, 0⟩) }))
      else (0, resp)
    | .power =>
      if sensor = .nullPtr ∨
          num_of_sensors ≠ (blockAt resp resp.power_block_id.toNat).num_of_sensors then
        (0, modifyBlock (kfree_sensor resp .power) block
          (fun bl => { bl with power := .live (List.replicate num_of_sensors ⟨0, 0, 0, 0⟩) }))
      else (0, resp)
    | .caps =>
      if sensor = .nullPtr ∨
          num_of_sensors ≠ (blockAt resp resp.caps_block_id.toNat).num_of_sensors then
        (0, modifyBlock (kfree_sensor resp .caps) block
          (fun bl => { bl with caps := .live (List.replicate num_of_sensors ⟨0, 0, 0, 0, 0, 0⟩) }))
      else (0, resp)

/-- Store a record into a live array slot.  The C code dereferences the
array pointer unconditionally; non-live pointers would fault and do not
arise in the verified scenarios, so they are left unchanged here. -/
def setLive : PtrState (List α) → Nat → α → PtrState (List α)
  | .live a, s, v => .live (a.set s v)
  | p, _, _ => p

/-- The FREQ/TEMP record decode loop (the C code duplicates the same body
for both types; both write `blocks[b].sensor`): for each record, read a
big-endian id and value and advance the cursor by the device-declared
`sensor_length`. -/
def decode_occ_records (data : Nat → Nat) (b sensor_length : Nat) :
    Nat → Nat → Nat → OccResponse → Nat × OccResponse
  | 0, _s, dnum, st => (dnum, st)
  | rem + 1, s, dnum, st =>
    let st1 := modifyBlock st b (fun bl =>
      { bl with sensor := setLive bl.sensor s ⟨be16_at data dnum, be16_at data (dnum + 2)⟩ })
    decode_occ_records data b sensor_length rem (s + 1) (dnum + sensor_length) st1

/-- The POWR record decode loop (id, update tag, accumulator, value). -/
def decode_power_records (data : Nat → Nat) (b sensor_length : Nat) :
    Nat → Nat → Nat → OccResponse → Nat × OccResponse
  | 0, _s, dnum, st => (dnum, st)
  | rem + 1, s, dnum, st =>
    let rec1 : PowerSensor :=
      ⟨be16_at data dnum, be32_at data (dnum + 2), be32_at data (dnum + 6),
        be16_at data (dnum + 10)⟩
    let st1 := modifyBlock st b (fun bl => { bl with power := setLive bl.power s rec1 })
    decode_power_records data b sensor_length rem (s + 1) (dnum + sensor_length) st1

/-- The CAPS record decode loop (six big-endian 16-bit fields). -/
def decode_caps_records (data : Nat → Nat) (b sensor_length : Nat) :
    Nat → Nat → Nat → OccResponse → Nat × OccResponse
  | 0, _s, dnum, st => (dnum, st)
  | rem + 1, s, dnum, st =>
    let rec1 : CapsSensor :=
      ⟨be16_at data dnum, be16_at data (dnum + 2), be16_at data (dnum + 4),
        be16_at data (dnum + 6), be16_at data (dnum + 8), be16_at data (dnum + 10)⟩
    let st1 := modifyBlock st b (fun bl => { bl with caps := setLive bl.caps s rec1 })
    decode_caps_records data b sensor_length rem (s + 1) (dnum + sensor_length) st1

/-- Lines 536-539: record the block prologue into `resp->blocks[b]` after
a successful decode. -/
def store_block_meta (st : OccResponse) (b : Nat) (ty : List Nat) (fmt len num : Nat) :
    OccResponse :=
  modifyBlock st b (fun bl =>
    { bl with sensor_type := ty, sensor_format := fmt,
              sensor_length := len, num_of_sensors := num })

def kTagFREQ : List Nat := [70, 82, 69, 81]
def kTagTEMP : List Nat := [84, 69, 77, 80]
def kTagPOWR : List Nat := [80, 79, 87, 82]
def kTagCAPS : List Nat := [67, 65, 80, 83]

/-- The ASCII bytes of `"SENSOR"`. -/
def occ_sig_bytes : List Nat := [83, 69, 78, 83, 79, 82]

/-- `strncmp(&data[SENSOR_STR_OFFSET], "SENSOR", 6) == 0`.  Since the
literal contains no interior NUL, this is exactly equality of the six
bytes. -/
def occ_sig_ok (data : Nat → Nat) : Prop :=
  (List.range 6).map (fun i => data (SENSOR_STR_OFFSET + i)) = occ_sig_bytes

instance occ_sig_ok_dec (data : Nat → Nat) : Decidable (occ_sig_ok data) := by
  unfold occ_sig_ok
  infer_instance

/-- The 4-byte type tag read at the head of a block prologue.  For the
four known tags (no interior NULs) the C `strncpy`+`strncmp` pair is
exactly 4-byte equality. -/
def tag_at (data : Nat → Nat) (dnum : Nat) : List Nat :=
  [data dnum, data (dnum + 1), data (dnum + 2), data (dnum + 3)]

/-- The block-walk loop of `parse_occ_response` (lines 403-540).  `fuel`
is the loop bound (the loop body runs at most `n` times since `b`
increases by one per iteration); `b` and `dnum` are the loop variables.
On `occ_renew_sensor` returning nonzero the C code `continue`s: the block
id, record decode and prologue store are all skipped and the cursor is
not advanced over the records. -/
def parse_blocks (data : Nat → Nat) (n : Nat) :
    Nat → Nat → Nat → OccResponse → Int × OccResponse
  | 0, _b, _dnum, st => (0, st)
  | fuel + 1, b, dnum, st =>
    if b < n then
      let sensor_type := tag_at data dnum
      let sensor_format := data (dnum + 5)
      let sensor_length := data (dnum + 6)
      let num_of_sensors := data (dnum + 7)
      let dnum2 := dnum + 8
      if sensor_type = kTagFREQ then
        let r := occ_renew_sensor st sensor_length num_of_sensors .freq b
        if r.1 ≠ 0 then parse_blocks data n fuel (b + 1) dnum2 r.2
        else
          let st1 := { r.2 with freq_block_id := (b : Int) }
          let dr := decode_occ_records data b sensor_length num_of_sensors 0 dnum2 st1
          parse_blocks data n fuel (b + 1) dr.1
            (store_block_meta dr.2 b sensor_type sensor_format sensor_length num_of_sensors)
      else if sensor_type = kTagTEMP then
        let r := occ_renew_sensor st sensor_length num_of_sensors .temp b
        if r.1 ≠ 0 then parse_blocks data n fuel (b + 1) dnum2 r.2
        else
          let st1 := { r.2 with temp_block_id := (b : Int) }
          let dr := decode_occ_records data b sensor_length num_of_sensors 0 dnum2 st1
          parse_blocks data n fuel (b + 1) dr.1
            (store_block_meta dr.2 b sensor_type sensor_format sensor_length num_of_sensors)
      else if sensor_type = kTagPOWR then
        let r := occ_renew_sensor st sensor_length num_of_sensors .power b
        if r.1 ≠ 0 then parse_blocks data n fuel (b + 1) dnum2 r.2
        else
          let st1 := { r.2 with power_block_id := (b : Int) }
          let dr := decode_power_records data b sensor_length num_of_sensors 0 dnum2 st1
          parse_blocks data n fuel (b + 1) dr.1
            (store_block_meta dr.2 b sensor_type sensor_format sensor_length num_of_sensors)
      else if sensor_type = kTagCAPS then
        let r := occ_renew_sensor st sensor_length num_of_sensors .caps b
        if r.1 ≠ 0 then parse_blocks data n fuel (b + 1) dnum2 r.2
        else
          let st1 := { r.2 with caps_block_id := (b : Int) }
          let dr := decode_caps_records data b sensor_length num_of_sensors 0 dnum2 st1
          parse_blocks data n fuel (b + 1) dr.1
            (store_block_meta dr.2 b sensor_type sensor_format sensor_length num_of_sensors)
      else (-1, deinit_occ_resp_buf st)
    else (0, st)

/-- The fixed-size header `memcpy`ed from `data[RESP_HEADER_OFFSET]` with
its two multi-byte fields converted from big-endian (net effect of
`memcpy` on the little-endian host followed by `be32_to_cpu` /
`be16_to_cpu`). -/
def decode_header (data : Nat → Nat) : OccPollHeader :=
  { status := data 5, ext_status := data 6, occs_present := data 7, config := data 8,
    occ_state := data 9, reserved0 := data 10, reserved1 := data 11, error_log_id := data 12,
    error_log_addr_start := be32_at data 13, error_log_length := be16_at data 17,
    reserved2 := data 19, reserved3 := data 20,
    occ_code_level := (List.range 16).map (fun i => data (21 + i)),
    sensor_eye_catcher := (List.range 6).map (fun i => data (37 + i)),
    sensor_block_num := data 43, sensor_data_version := data 44 }

/-- `parse_occ_response` (lines 354-546): signature check, block-count
check, block-list reallocation when the count changed (each a hard `-1`
failure via `deinit_occ_resp_buf` when violated), header copy, then the
block walk. -/
def parse_occ_response (data : Nat → Nat) (resp : OccResponse) : Int × OccResponse :=
  if ¬ occ_sig_ok data then (-1, deinit_occ_resp_buf resp)
  else
    let sensor_block_num := data SENSOR_BLOCK_NUM_OFFSET
    if sensor_block_num = 0 then (-1, deinit_occ_resp_buf resp)
    else
      let resp1 :=
        if sensor_block_num ≠ resp.header.sensor_block_num then
          { deinit_occ_resp_buf resp with
              blocks := some (List.replicate sensor_block_num emptyBlock) }
        else resp
      parse_blocks data sensor_block_num sensor_block_num 0 SENSOR_BLOCK_OFFSET
        { resp1 with header := decode_header data }

/-- `get_occdata_length`: big-endian 16-bit length at offset 3. -/
def get_occdata_length (data : Nat → Nat) : Nat := be16_at data RESP_DATA_LENGTH

/-- The response fetch loop of `occ_get_all` (lines 632-633):
`for (i = 8; i < num_bytes + 8; i += 8) occ_getscomb(..., occ_data, i);`
with the `occ_getscomb` result discarded.  `k` counts loop iterations to
index the bus oracle (send `8 + k`, receive `1 + k`, continuing the
numbering started by `occ_send_cmd`). -/
def occ_read_loop (bus : I2CBus) (stop : Nat) :
    Nat → Nat → Nat → (Nat → Nat) → (Nat → Nat)
  | 0, _k, _i, buf => buf
  | fuel + 1, k, i, buf =>
    if i < stop then
      occ_read_loop bus stop fuel (k + 1) (i + 8)
        (occ_getscomb bus (8 + k) (1 + k) OCB_DATA buf i).2
    else buf

/-- `occ_get_all` (lines 592-640): send the poll command (type 0,
sequence 0, 1-byte payload `0x10`) into a zeroed 4096-byte buffer, reject
a nonzero status byte and an out-of-range declared length with `-EINVAL`,
fetch the remaining data 8 bytes at a time, and parse. -/
def occ_get_all (bus : I2CBus) (occ_resp : OccResponse) : Int × OccResponse :=
  let occ_data0 : Nat → Nat := fun _ => 0
  let sc := occ_send_cmd bus 0 0 1 [0x10] 0 occ_data0
  if sc.1 ≠ 0 then (-EINVAL, occ_resp)
  else
    let num_bytes := get_occdata_length sc.2
    if num_bytes > OCC_DATA_MAX then (-EINVAL, occ_resp)
    else if num_bytes = 0 then (-EINVAL, occ_resp)
    else
      parse_occ_response (occ_read_loop bus (num_bytes + 8) num_bytes 0 8 sc.2) occ_resp

/-! ### Refresh cache (`occ_update_device`, lines 643-662)

Jiffies are modelled as a monotone `Nat` clock (`time_after(a, b) ↔
a > b` without wraparound); the mutex is implicit in the sequential
model.  `occ_get_all` is abstracted by the `fetch` parameter; the middle
`Bool` of the result records whether a fetch was performed in this call
(i.e. whether the guarded branch ran). -/

structure OccDrvData where
  valid : Bool
  last_updated : Nat
  update_interval : Nat
  occ_resp : OccResponse
deriving DecidableEq

def occ_update_device (fetch : OccResponse → Int × OccResponse) (now : Nat)
    (d : OccDrvData) : Int × Bool × OccDrvData :=
  if now > d.last_updated + d.update_interval ∨ d.valid = false then
    let fr := fetch d.occ_resp
    (fr.1, true,
      { d with valid := if fr.1 ≠ 0 then false else true,
               occ_resp := fr.2, last_updated := now })
  else (0, false, d)

/-! ### Concrete instances used by witnesses and counterexamples -/

/-- A bus on which every i2c transfer reports 0 bytes: every register
access fails at the transport layer. -/
def busAllFail : I2CBus := ⟨fun _ => 0, fun _ => 0, fun _ _ => 0⟩

/-- A bus on which every transfer succeeds and every received byte is
`0xAB = 171`. -/
def busAllOk : I2CBus :=
  ⟨fun k => if k ≤ 6 then 12 else 4, fun _ => 8, fun _ _ => 171⟩

def byteFn (l : List Nat) : Nat → Nat := fun i => l.getD i 0

/-- A response carrying one FREQ block with one record
(id 5, value 7): header zeros, `"SENSOR"` at 37, block count 1 at 43,
prologue `"FREQ"`/format 0/record length 4/count 1 at 45, one record. -/
def c8data1 : List Nat :=
  List.replicate 37 0 ++ occ_sig_bytes ++ [1, 0] ++ kTagFREQ ++ [0, 0, 4, 1] ++ [0, 5, 0, 7]

/-- The same response, but the FREQ block now declares zero records. -/
def c8data2 : List Nat :=
  List.replicate 37 0 ++ occ_sig_bytes ++ [1, 0] ++ kTagFREQ ++ [0, 0, 4, 0]

def c8state1 : OccResponse := (parse_occ_response (byteFn c8data1) emptyOccResponse).2

def c8result : Int × OccResponse := parse_occ_response (byteFn c8data2) c8state1

/-- A response whose single block carries the unknown tag `"XYZZ"`. -/
def c6data : List Nat :=
  List.replicate 37 0 ++ occ_sig_bytes ++ [1, 0] ++ [88, 89, 90, 90] ++ [0, 0, 4, 1]

/-- A well-signed response with block count zero. -/
def c5data : List Nat := List.replicate 37 0 ++ occ_sig_bytes ++ [0]

/-- Statement-side description of `occ_renew_sensor`'s reallocation
outcome: the old array of type `t` (found through the stored block id) is
freed, and a zero-initialized array of exactly `num` records is installed
at `blocks[b]`. -/
def renew_fresh_alloc (resp : OccResponse) (t : SensorT) (b num : Nat) : OccResponse :=
  match t with
  | .temp => modifyBlock (kfree_sensor resp .temp) b
      (fun bl => { bl with sensor := .live (List.replicate num ⟨0, 0⟩) })
  | .freq => modifyBlock (kfree_sensor resp .freq) b
      (fun bl => { bl with sensor := .live (List.replicate num ⟨0, 0⟩) })
  | .power => modifyBlock (kfree_sensor resp .power) b
      (fun bl => { bl with power := .live (List.replicate num ⟨0, 0, 0, 0⟩) })
  | .caps => modifyBlock (kfree_sensor resp .caps) b
      (fun bl => { bl with caps := .live (List.replicate num ⟨0, 0, 0, 0, 0, 0⟩) })

/-- A fetch that always fails with `-EINVAL` (e.g. a transport short
write inside `occ_get_all`), leaving the response state unchanged. -/
def fetchFail : OccResponse → Int × OccResponse := fun r => (-EINVAL, r)

/-- Cache state: valid, last refreshed at jiffy 100, 100-jiffy minimum
interval. -/
def c9d0 : OccDrvData := ⟨true, 100, 100, emptyOccResponse⟩

/-- A refresh attempt at jiffy 201 (past the interval) that fails. -/
def c9step1 : Int × Bool × OccDrvData := occ_update_device fetchFail 201 c9d0

def c9d1 : OccDrvData := c9step1.2.2

end OccI2c

namespace OccI2c

/-! ### Helper lemmas about bit-level arithmetic -/

/-- Bitwise OR of numbers with disjoint byte support is addition: if `a`
is zero on its low `k` bits and `b` fits in `k` bits then `a ||| b = a + b`. -/
theorem lor_eq_add_of_disjoint {k a b : Nat} (ha : a % 2 ^ k = 0) (hb : b < 2 ^ k) :
    a ||| b = a + b := by
  obtain ⟨m, hm⟩ := Nat.dvd_of_mod_eq_zero ha
  subst hm
  apply Nat.eq_of_testBit_eq
  intro j
  rw [Nat.testBit_or, Nat.testBit_mul_pow_two_add m hb j]
  by_cases hj : j < k
  · have hza : Nat.testBit (2 ^ k * m) j = false := by
      rw [Nat.testBit_mul_pow_two]
      simp [Nat.not_le_of_lt hj]
    simp [hj, hza]
  · have hzb : Nat.testBit b j = false := by
      apply Nat.testBit_lt_two_pow
      exact lt_of_lt_of_le hb (Nat.pow_le_pow_right (by norm_num) (Nat.le_of_not_lt hj))
    rw [Nat.testBit_mul_pow_two]
    simp [hj, hzb, Nat.le_of_not_lt hj]

/-- The checksum accumulator always stays below `2^16`. -/
theorem occ_checksum_lt (c1 c2 : Nat) : occ_checksum c1 c2 < 65536 := by
  simp only [occ_checksum, show List.range 4 = [0, 1, 2, 3] from rfl, List.foldl]
  omega

/-- The wrapping `uint16_t` accumulation computes the byte-wise sum
modulo `65536`. -/
theorem occ_checksum_eq_sum_mod (c1 c2 : Nat) :
    occ_checksum c1 c2 = (occ_word_bytes_sum c1 + occ_word_bytes_sum c2) % 65536 := by
  simp only [occ_checksum, occ_word_bytes_sum,
    show List.range 4 = [0, 1, 2, 3] from rfl, List.foldl]
  omega

theorem nth_byte_eq_div_mod (w i : Nat) : nth_byte w i = w / 2 ^ (i * 8) % 256 := by
  simp [nth_byte, Nat.shiftRight_eq_div_pow]

/-- The embedded checksum is below `2^16`. -/
theorem occ_cmd_checksum_lt (seq typ length : Nat) (data : List Nat) (junk : Nat) :
    occ_cmd_checksum seq typ length data junk < 65536 := by
  unfold occ_cmd_checksum
  exact occ_checksum_lt _ _

/-- Payload word for an empty payload: every bit (the uninitialized stack
bytes included) is shifted out of the 32-bit word. -/
theorem occ_cmd2_payload_zero (data : List Nat) (junk : Nat) :
    occ_cmd2_payload data 0 junk = 0 := by
  simp only [occ_cmd2_payload, List.take_zero, bytesLE, List.foldr_nil, Nat.shiftLeft_eq]
  norm_num

/-- Payload word for a 1-byte payload: the payload byte occupies the most
significant byte, the rest is zero. -/
theorem occ_cmd2_payload_one (data : List Nat) (junk : Nat) :
    occ_cmd2_payload data 1 junk = data.getD 0 0 % 256 * 2 ^ 24 := by
  rcases data with _ | ⟨d0, rest⟩
  · simp only [occ_cmd2_payload, List.take_nil, bytesLE, List.foldr_nil, Nat.shiftLeft_eq,
      List.getD_nil]
    norm_num
    omega
  · simp only [occ_cmd2_payload, List.take_succ_cons, List.take_zero, bytesLE,
      List.foldr_cons, List.foldr_nil, Nat.shiftLeft_eq, List.getD_cons_zero]
    norm_num
    omega

/-- Payload word for a 2-byte payload: the payload occupies the two most
significant bytes (little-endian byte 0 first), the rest is zero. -/
theorem occ_cmd2_payload_two (data : List Nat) (junk : Nat) :
    occ_cmd2_payload data 2 junk =
      (data.getD 0 0 + 256 * data.getD 1 0) % 65536 * 65536 := by
  rcases data with _ | ⟨d0, _ | ⟨d1, rest⟩⟩
  · simp only [occ_cmd2_payload, List.take_nil, bytesLE, List.foldr_nil, Nat.shiftLeft_eq,
      List.getD_nil]
    norm_num
    omega
  · simp only [occ_cmd2_payload, List.take_succ_cons, List.take_nil, bytesLE,
      List.foldr_cons, List.foldr_nil, Nat.shiftLeft_eq, List.getD_cons_zero,
      List.getD_nil, List.getD_cons_succ]
    norm_num
    omega
  · simp only [occ_cmd2_payload, List.take_succ_cons, List.take_zero, bytesLE,
      List.foldr_cons, List.foldr_nil, Nat.shiftLeft_eq, List.getD_cons_zero,
      List.getD_cons_succ]
    norm_num
    omega

/-- Finished `cmd2` for a 2-byte payload: payload in the high half,
checksum in the low half, no interference from the OR. -/
theorem occ_cmd2_final_two (seq typ : Nat) (data : List Nat) (junk : Nat) :
    occ_cmd2_final seq typ 2 data junk =
      (data.getD 0 0 + 256 * data.getD 1 0) % 65536 * 65536 +
        occ_cmd_checksum seq typ 2 data junk := by
  have hck := occ_cmd_checksum_lt seq typ 2 data junk
  unfold occ_cmd2_final
  rw [occ_cmd2_payload_two, show (2 - 2) * 8 = 0 from rfl, Nat.shiftLeft_zero,
    lor_eq_add_of_disjoint (k := 16)
      (by rw [show (2 : Nat) ^ 16 = 65536 from rfl]; exact Nat.mul_mod_left _ _)
      (by rw [show (2 : Nat) ^ 16 = 65536 from rfl]; exact hck)]
  apply Nat.mod_eq_of_lt
  rw [show (2 : Nat) ^ 32 = 4294967296 from rfl]
  omega

/-- Finished `cmd2` for a 1-byte payload: payload byte in the top byte,
checksum in the middle two bytes. -/
theorem occ_cmd2_final_one (seq typ : Nat) (data : List Nat) (junk : Nat) :
    occ_cmd2_final seq typ 1 data junk =
      data.getD 0 0 % 256 * 2 ^ 24 +
        occ_cmd_checksum seq typ 1 data junk * 256 := by
  have hck := occ_cmd_checksum_lt seq typ 1 data junk
  unfold occ_cmd2_final
  rw [occ_cmd2_payload_one, show (2 - 1) * 8 = 8 from rfl, Nat.shiftLeft_eq,
    show (2 : Nat) ^ 8 = 256 from rfl,
    lor_eq_add_of_disjoint (k := 24) (Nat.mul_mod_left _ _)
      (by rw [show (2 : Nat) ^ 24 = 16777216 from rfl]; omega)]
  apply Nat.mod_eq_of_lt
  rw [show (2 : Nat) ^ 32 = 4294967296 from rfl, show (2 : Nat) ^ 24 = 16777216 from rfl]
  omega

/-- Finished `cmd2` for an empty payload: only the checksum, in bytes 2
and 3. -/
theorem occ_cmd2_final_zero (seq typ : Nat) (data : List Nat) (junk : Nat) :
    occ_cmd2_final seq typ 0 data junk =
      occ_cmd_checksum seq typ 0 data junk * 65536 := by
  have hck := occ_cmd_checksum_lt seq typ 0 data junk
  unfold occ_cmd2_final
  rw [occ_cmd2_payload_zero, show (2 - 0) * 8 = 16 from rfl, Nat.shiftLeft_eq,
    show (2 : Nat) ^ 16 = 65536 from rfl, Nat.zero_or]
  apply Nat.mod_eq_of_lt
  rw [show (2 : Nat) ^ 32 = 4294967296 from rfl]
  omega

end OccI2c

namespace OccI2c

/-! ### Structural helper lemmas for the parser state -/

theorem modifyBlock_blocks_isSome (resp : OccResponse) (i : Nat)
    (f : SensorDataBlock → SensorDataBlock) :
    (modifyBlock resp i f).blocks.isSome = resp.blocks.isSome := by
  unfold modifyBlock
  cases hb : resp.blocks <;> simp [hb]

theorem kfree_sensor_blocks_isSome (resp : OccResponse) (t : SensorT) :
    (kfree_sensor resp t).blocks.isSome = resp.blocks.isSome := by
  unfold kfree_sensor
  cases t <;> split_ifs <;> simp [modifyBlock_blocks_isSome]

theorem occ_renew_sensor_blocks_isSome (resp : OccResponse) (l m : Nat) (t : SensorT)
    (b : Nat) :
    (occ_renew_sensor resp l m t b).2.blocks.isSome = resp.blocks.isSome := by
  cases t <;> simp only [occ_renew_sensor] <;> split_ifs <;>
    simp [modifyBlock_blocks_isSome, kfree_sensor_blocks_isSome]

theorem decode_occ_records_blocks_isSome (data : Nat → Nat) (b len : Nat) :
    ∀ (rem s dnum : Nat) (st : OccResponse),
      (decode_occ_records data b len rem s dnum st).2.blocks.isSome = st.blocks.isSome := by
  intro rem
  induction rem with
  | zero => intro s dnum st; rfl
  | succ k ih =>
    intro s dnum st
    rw [decode_occ_records, ih]
    simp [modifyBlock_blocks_isSome]

theorem decode_power_records_blocks_isSome (data : Nat → Nat) (b len : Nat) :
    ∀ (rem s dnum : Nat) (st : OccResponse),
      (decode_power_records data b len rem s dnum st).2.blocks.isSome = st.blocks.isSome := by
  intro rem
  induction rem with
  | zero => intro s dnum st; rfl
  | succ k ih =>
    intro s dnum st
    rw [decode_power_records, ih]
    simp [modifyBlock_blocks_isSome]

theorem decode_caps_records_blocks_isSome (data : Nat → Nat) (b len : Nat) :
    ∀ (rem s dnum : Nat) (st : OccResponse),
      (decode_caps_records data b len rem s dnum st).2.blocks.isSome = st.blocks.isSome := by
  intro rem
  induction rem with
  | zero => intro s dnum st; rfl
  | succ k ih =>
    intro s dnum st
    rw [decode_caps_records, ih]
    simp [modifyBlock_blocks_isSome]

theorem store_block_meta_blocks_isSome (st : OccResponse) (b : Nat) (ty : List Nat)
    (fmt len num : Nat) :
    (store_block_meta st b ty fmt len num).blocks.isSome = st.blocks.isSome := by
  unfold store_block_meta
  exact modifyBlock_blocks_isSome _ _ _

theorem deinit_of_isSome {st : OccResponse} (h : st.blocks.isSome) :
    deinit_occ_resp_buf st = emptyOccResponse := by
  unfold deinit_occ_resp_buf
  cases hb : st.blocks with
  | none => rw [hb] at h; simp at h
  | some bs => rfl

/-- Inside the block walk the only failure site is the unknown-tag
branch, and it tears the whole state down: every run either reports
success or ends in `(-1, emptyOccResponse)`. -/
theorem parse_blocks_result (data : Nat → Nat) (n : Nat) :
    ∀ (fuel b dnum : Nat) (st : OccResponse), st.blocks.isSome →
      (parse_blocks data n fuel b dnum st).1 = 0 ∨
        parse_blocks data n fuel b dnum st = (-1, emptyOccResponse) := by
  intro fuel
  induction fuel with
  | zero => intro b dnum st _; left; rfl
  | succ k ih =>
    intro b dnum st hsome
    rw [parse_blocks]
    by_cases hb : b < n
    · simp only [if_pos hb]
      by_cases h1 : tag_at data dnum = kTagFREQ
      · simp only [if_pos h1]
        by_cases hr : (occ_renew_sensor st (data (dnum + 6)) (data (dnum + 7)) .freq b).1 ≠ 0
        · simp only [if_pos hr]
          exact ih _ _ _ (by rw [occ_renew_sensor_blocks_isSome]; exact hsome)
        · simp only [if_neg hr]
          apply ih
          rw [store_block_meta_blocks_isSome, decode_occ_records_blocks_isSome]
          show (occ_renew_sensor st _ _ .freq b).2.blocks.isSome
          rw [occ_renew_sensor_blocks_isSome]
          exact hsome
      · simp only [if_neg h1]
        by_cases h2 : tag_at data dnum = kTagTEMP
        · simp only [if_pos h2]
          by_cases hr : (occ_renew_sensor st (data (dnum + 6)) (data (dnum + 7)) .temp b).1 ≠ 0
          · simp only [if_pos hr]
            exact ih _ _ _ (by rw [occ_renew_sensor_blocks_isSome]; exact hsome)
          · simp only [if_neg hr]
            apply ih
            rw [store_block_meta_blocks_isSome, decode_occ_records_blocks_isSome]
            show (occ_renew_sensor st _ _ .temp b).2.blocks.isSome
            rw [occ_renew_sensor_blocks_isSome]
            exact hsome
        · simp only [if_neg h2]
          by_cases h3 : tag_at data dnum = kTagPOWR
          · simp only [if_pos h3]
            by_cases hr : (occ_renew_sensor st (data (dnum + 6)) (data (dnum + 7)) .power b).1 ≠ 0
            · simp only [if_pos hr]
              exact ih _ _ _ (by rw [occ_renew_sensor_blocks_isSome]; exact hsome)
            · simp only [if_neg hr]
              apply ih
              rw [store_block_meta_blocks_isSome, decode_power_records_blocks_isSome]
              show (occ_renew_sensor st _ _ .power b).2.blocks.isSome
              rw [occ_renew_sensor_blocks_isSome]
              exact hsome
          · simp only [if_neg h3]
            by_cases h4 : tag_at data dnum = kTagCAPS
            · simp only [if_pos h4]
              by_cases hr : (occ_renew_sensor st (data (dnum + 6)) (data (dnum + 7)) .caps b).1 ≠ 0
              · simp only [if_pos hr]
                exact ih _ _ _ (by rw [occ_renew_sensor_blocks_isSome]; exact hsome)
              · simp only [if_neg hr]
                apply ih
                rw [store_block_meta_blocks_isSome, decode_caps_records_blocks_isSome]
                show (occ_renew_sensor st _ _ .caps b).2.blocks.isSome
                rw [occ_renew_sensor_blocks_isSome]
                exact hsome
            · simp only [if_neg h4]
              right
              rw [deinit_of_isSome hsome]
    · simp only [if_neg hb]
      left
      trivial

end OccI2c

namespace OccI2c

theorem getD_lt_256 (l : List Nat) (h : ∀ x ∈ l, x < 256) (i : Nat) : l.getD i 0 < 256 := by
  induction l generalizing i with
  | nil => simp [List.getD_nil]
  | cons a t ih =>
    cases i with
    | zero => simpa using h a (by simp)
    | succ j =>
      simp only [List.getD_cons_succ]
      exact ih (fun x hx => h x (by simp [hx])) j

/-- C2: For every command frame built by the encoder with payload length
at most 2 bytes, the 16-bit checksum it embeds in `cmd2` equals the
byte-wise sum modulo 65536 of the eight encoded bytes of `cmd1` and of
the pre-checksum `cmd2` word — equivalently, a simulated decoder reading
the two checksum bytes back out of the finished frame reproduces exactly
that sum. -/
theorem occ_cmd_checksum_bytewise_sum (seq typ length junk : Nat) (data : List Nat)
    (h : length ≤ 2) :
    occ_embedded_checksum (occ_cmd2_final seq typ length data junk) length =
      (occ_word_bytes_sum (occ_cmd1 seq typ length) +
        occ_word_bytes_sum (occ_cmd2_payload data length junk)) % 65536 := by
  have hsum : (occ_word_bytes_sum (occ_cmd1 seq typ length) +
      occ_word_bytes_sum (occ_cmd2_payload data length junk)) % 65536 =
      occ_cmd_checksum seq typ length data junk :=
    (occ_checksum_eq_sum_mod _ _).symm
  rw [hsum]
  have hck := occ_cmd_checksum_lt seq typ length data junk
  interval_cases length
  · rw [occ_cmd2_final_zero]
    simp only [occ_embedded_checksum, nth_byte_eq_div_mod]
    omega
  · rw [occ_cmd2_final_one]
    simp only [occ_embedded_checksum, nth_byte_eq_div_mod]
    omega
  · rw [occ_cmd2_final_two]
    simp only [occ_embedded_checksum, nth_byte_eq_div_mod]
    omega

/-- C2 witness, at the driver's own poll command (sequence 0, type 0,
1-byte payload `0x10`). -/
theorem occ_cmd_checksum_bytewise_sum_witness :
    (1 : Nat) ≤ 2 ∧
      occ_embedded_checksum (occ_cmd2_final 0 0 1 [0x10] 0) 1 =
        (occ_word_bytes_sum (occ_cmd1 0 0 1) +
          occ_word_bytes_sum (occ_cmd2_payload [0x10] 1 0)) % 65536 :=
  ⟨by norm_num, occ_cmd_checksum_bytewise_sum 0 0 1 0 [0x10] (by norm_num)⟩

/-- C3: for payload lengths 0, 1 and 2, the checksum is ORed into `cmd2`
at byte position `2 - length` (its two bytes land at positions
`2 - length` and `3 - length`), while the payload bytes sit untouched,
left-justified at positions `4 - length, …, 3` — so the checksum bytes
never overlap the payload bytes. -/
theorem occ_cmd_checksum_placement (seq typ length junk : Nat) (data : List Nat)
    (h : length ≤ 2) (hd : ∀ x ∈ data, x < 256) :
    (∀ i, i < length →
        nth_byte (occ_cmd2_final seq typ length data junk) (4 - length + i) =
          data.getD i 0)
    ∧ nth_byte (occ_cmd2_final seq typ length data junk) (2 - length) =
        occ_cmd_checksum seq typ length data junk % 256
    ∧ nth_byte (occ_cmd2_final seq typ length data junk) (3 - length) =
        occ_cmd_checksum seq typ length data junk / 256 := by
  have hck := occ_cmd_checksum_lt seq typ length data junk
  have hd0 : data.getD 0 0 < 256 := getD_lt_256 data hd 0
  have hd1 : data.getD 1 0 < 256 := getD_lt_256 data hd 1
  interval_cases length
  · refine ⟨fun i hi => absurd hi (by omega), ?_, ?_⟩
    · rw [occ_cmd2_final_zero]
      simp only [nth_byte_eq_div_mod]
      omega
    · rw [occ_cmd2_final_zero]
      simp only [nth_byte_eq_div_mod]
      omega
  · refine ⟨?_, ?_, ?_⟩
    · intro i hi
      interval_cases i
      rw [occ_cmd2_final_one]
      simp only [nth_byte_eq_div_mod]
      omega
    · rw [occ_cmd2_final_one]
      simp only [nth_byte_eq_div_mod]
      omega
    · rw [occ_cmd2_final_one]
      simp only [nth_byte_eq_div_mod]
      omega
  · refine ⟨?_, ?_, ?_⟩
    · intro i hi
      interval_cases i
      · rw [occ_cmd2_final_two]
        simp only [nth_byte_eq_div_mod]
        omega
      · rw [occ_cmd2_final_two]
        simp only [nth_byte_eq_div_mod]
        omega
    · rw [occ_cmd2_final_two]
      simp only [nth_byte_eq_div_mod]
      omega
    · rw [occ_cmd2_final_two]
      simp only [nth_byte_eq_div_mod]
      omega

/-- C3 witness, at the 2-byte power-cap payload `[0x34, 0x12]` of
`set_user_powercap`: both payload bytes survive in the top half of `cmd2`
and the checksum bytes read back exactly. -/
theorem occ_cmd_checksum_placement_witness :
    (2 : Nat) ≤ 2 ∧ (∀ x ∈ [0x34, 0x12], x < 256) ∧
      nth_byte (occ_cmd2_final 0 0x22 2 [0x34, 0x12] 0) (4 - 2 + 0) =
        ([0x34, 0x12] : List Nat).getD 0 0 ∧
      nth_byte (occ_cmd2_final 0 0x22 2 [0x34, 0x12] 0) (2 - 2) =
        occ_cmd_checksum 0 0x22 2 [0x34, 0x12] 0 % 256 :=
  ⟨by norm_num, by decide,
    (occ_cmd_checksum_placement 0 0x22 2 0 [0x34, 0x12] (by norm_num) (by decide)).1 0
      (by norm_num),
    (occ_cmd_checksum_placement 0 0x22 2 0 [0x34, 0x12] (by norm_num) (by decide)).2.1⟩

end OccI2c

namespace OccI2c

/-- C1 counterexample: on a bus where every i2c transfer reports 0 bytes,
the very first drive step (the control-OR write) fails with the register
layer's `I2C_WRITE_ERROR`, and the final data-register read fails with
`-I2C_WRITE_ERROR`, yet `occ_send_cmd` returns `0` — the stale byte 2 of
the scratch buffer — so no step's transport error reaches the caller. -/
theorem occ_send_cmd_ignores_transport_error_cex :
    occ_putscom busAllFail 0 OCB_STATUS_CONTROL_OR 0x08000000 0x00000000 = I2C_WRITE_ERROR ∧
      (occ_getscomb busAllFail 7 0 OCB_DATA (fun _ => 0) 0).1 = -I2C_WRITE_ERROR ∧
      (occ_send_cmd busAllFail 0 0 1 [0x10] 0 (fun _ => 0)).1 = 0 :=
  ⟨by decide, by decide, by decide⟩

/-- C1 amended: `occ_send_cmd` discards the register-layer results of the
seven `occ_putscom` drive steps — its outcome is unchanged under any
reassignment of their transfer results — and always returns byte 2 of the
(possibly stale) response scratch buffer; the poll path `occ_get_all`
does treat a nonzero returned status byte as a protocol rejection,
returning `-EINVAL` with the response state untouched. -/
theorem occ_send_cmd_status_amended (bus : I2CBus) (g : Nat → Int)
    (hg : g 7 = bus.sendRet 7)
    (seq typ length junk : Nat) (data : List Nat) (resp0 : Nat → Nat) :
    (occ_send_cmd { bus with sendRet := g } seq typ length data junk resp0 =
        occ_send_cmd bus seq typ length data junk resp0)
    ∧ (occ_send_cmd bus seq typ length data junk resp0).1 =
        (occ_send_cmd bus seq typ length data junk resp0).2 2
    ∧ (∀ st : OccResponse, (occ_send_cmd bus 0 0 1 [0x10] 0 (fun _ => 0)).1 ≠ 0 →
        occ_get_all bus st = (-EINVAL, st)) := by
  refine ⟨?_, ?_, ?_⟩
  · unfold occ_send_cmd occ_getscomb
    simp [hg]
  · unfold occ_send_cmd
    simp
  · intro st hst
    unfold occ_get_all
    simp [hst]

/-- C1 amended witness: instantiated on the all-failing bus with an
alternative assignment making every putscom succeed instead — the result
is identical, and the rejection path fires on a bus whose read returns a
nonzero status byte. -/
theorem occ_send_cmd_status_amended_witness :
    occ_send_cmd { busAllFail with sendRet := fun k => if k = 7 then 0 else 12 } 0 0 1 [0x10] 0
        (fun _ => 0) =
      occ_send_cmd busAllFail 0 0 1 [0x10] 0 (fun _ => 0) ∧
    occ_get_all busAllOk emptyOccResponse = (-EINVAL, emptyOccResponse) :=
  ⟨(occ_send_cmd_status_amended busAllFail (fun k => if k = 7 then 0 else 12) (by decide)
      0 0 1 0 [0x10] (fun _ => 0)).1,
   (occ_send_cmd_status_amended busAllOk busAllOk.sendRet rfl 0 0 1 0 [] (fun _ => 0)).2.2
      emptyOccResponse (by decide)⟩

set_option maxRecDepth 4000 in
/-- C4 (code bug): the declared reply length 4096 passes the refresh's
validation — it is neither greater than `OCC_DATA_MAX` nor zero — yet the
subsequent 8-byte read sequence of `occ_get_all` deposits bytes past the
4096-byte raw frame buffer: starting from an all-zero buffer, after the
loop the byte at offset 4103 holds the bus value 171, so the final read
(base offset 4096) wrote at offsets `4096..4103`, all at or beyond the
buffer's end. -/
theorem occ_get_all_read_loop_overflow :
    (¬ (4096 : Nat) > OCC_DATA_MAX) ∧ ((4096 : Nat) ≠ 0) ∧
      occ_read_loop busAllOk (4096 + 8) 4096 0 8 (fun _ => 0) 4103 = 171 ∧
      OCC_DATA_MAX ≤ 4103 :=
  ⟨by decide, by decide, by decide, by decide⟩

/-- C5: whenever the six bytes at offset 37 differ from `"SENSOR"`, the
parse fails with `-1` (the code's `MalformedResponse`) and performs the
error-path teardown without decoding anything, regardless of every other
byte — in particular regardless of the block-count byte, which shows the
signature check precedes the block-count check; and when the signature
matches but the block count at offset 43 is zero, the parse fails the
same way before any block decoding. -/
theorem parse_occ_response_malformed (data : Nat → Nat) (resp : OccResponse) :
    (¬ occ_sig_ok data →
        parse_occ_response data resp = (-1, deinit_occ_resp_buf resp))
    ∧ (occ_sig_ok data → data SENSOR_BLOCK_NUM_OFFSET = 0 →
        parse_occ_response data resp = (-1, deinit_occ_resp_buf resp)) := by
  constructor
  · intro h
    unfold parse_occ_response
    simp [h]
  · intro h h0
    unfold parse_occ_response
    simp [h, h0]

/-- C5 witness: an all-zero buffer (signature absent, block count byte
arbitrary-zero) and a correctly signed buffer with block count 0 both
fail with `-1` and the teardown state. -/
theorem parse_occ_response_malformed_witness :
    (¬ occ_sig_ok (byteFn []) ∧
      parse_occ_response (byteFn []) emptyOccResponse =
        (-1, deinit_occ_resp_buf emptyOccResponse))
    ∧ (occ_sig_ok (byteFn c5data) ∧ byteFn c5data SENSOR_BLOCK_NUM_OFFSET = 0 ∧
      parse_occ_response (byteFn c5data) emptyOccResponse =
        (-1, deinit_occ_resp_buf emptyOccResponse)) :=
  ⟨⟨by decide, (parse_occ_response_malformed (byteFn []) emptyOccResponse).1 (by decide)⟩,
   ⟨by decide, by decide,
    (parse_occ_response_malformed (byteFn c5data) emptyOccResponse).2 (by decide) (by decide)⟩⟩

end OccI2c

namespace OccI2c

/-- C6: an unknown 4-byte type tag at any position reached by the block
walk aborts it immediately with `-1` and the full teardown of the current
state; and at the level of `parse_occ_response`, once past the signature
and block-count checks (so any remaining failure is the unknown-tag
branch), every failing parse ends in the completely reset state —
block list freed, header zeroed, all four type indices at the `-1`
sentinel — so no partial snapshot survives.  The `isSome` hypothesis is
the reachability invariant that a nonzero recorded block count comes with
an allocated block list. -/
theorem parse_occ_response_unknown_tag_resets :
    (∀ (data : Nat → Nat) (n fuel b dnum : Nat) (st : OccResponse),
        b < n →
        tag_at data dnum ≠ kTagFREQ → tag_at data dnum ≠ kTagTEMP →
        tag_at data dnum ≠ kTagPOWR → tag_at data dnum ≠ kTagCAPS →
        parse_blocks data n (fuel + 1) b dnum st = (-1, deinit_occ_resp_buf st))
    ∧ (∀ (data : Nat → Nat) (resp : OccResponse),
        occ_sig_ok data → data SENSOR_BLOCK_NUM_OFFSET ≠ 0 →
        (data SENSOR_BLOCK_NUM_OFFSET = resp.header.sensor_block_num →
          resp.blocks.isSome) →
        (parse_occ_response data resp).1 ≠ 0 →
        (parse_occ_response data resp).2 = emptyOccResponse) := by
  constructor
  · intro data n fuel b dnum st hb h1 h2 h3 h4
    rw [parse_blocks]
    simp [hb, h1, h2, h3, h4]
  · intro data resp hsig hn hinv hne
    unfold parse_occ_response at hne ⊢
    rw [if_neg (not_not_intro hsig)] at hne ⊢
    simp only [] at hne ⊢
    rw [if_neg hn] at hne ⊢
    by_cases hch : data SENSOR_BLOCK_NUM_OFFSET = resp.header.sensor_block_num
    · rw [if_neg (not_not_intro hch)] at hne ⊢
      rcases parse_blocks_result data (data SENSOR_BLOCK_NUM_OFFSET)
          (data SENSOR_BLOCK_NUM_OFFSET) 0 SENSOR_BLOCK_OFFSET
          { resp with header := decode_header data } (hinv hch) with h0 | hres
      · exact absurd h0 hne
      · rw [hres]
    · rw [if_pos hch] at hne ⊢
      rcases parse_blocks_result data (data SENSOR_BLOCK_NUM_OFFSET)
          (data SENSOR_BLOCK_NUM_OFFSET) 0 SENSOR_BLOCK_OFFSET
          { deinit_occ_resp_buf resp with
              blocks := some (List.replicate (data SENSOR_BLOCK_NUM_OFFSET) emptyBlock),
              header := decode_header data } rfl with h0 | hres
      · exact absurd h0 hne
      · rw [hres]

/-- C6 witness: a response whose single block is tagged `"XYZZ"`: the
walk step returns `-1` with the teardown of the walked state, and the
whole parse of that response from the empty state ends in
`emptyOccResponse`. -/
theorem parse_occ_response_unknown_tag_resets_witness :
    parse_blocks (byteFn c6data) 1 (0 + 1) 0 45
        { emptyOccResponse with blocks := some [emptyBlock] } =
      (-1, deinit_occ_resp_buf { emptyOccResponse with blocks := some [emptyBlock] })
    ∧ (parse_occ_response (byteFn c6data) emptyOccResponse).2 = emptyOccResponse :=
  ⟨parse_occ_response_unknown_tag_resets.1 (byteFn c6data) 1 0 0 45
      { emptyOccResponse with blocks := some [emptyBlock] }
      (by decide) (by decide) (by decide) (by decide) (by decide),
   parse_occ_response_unknown_tag_resets.2 (byteFn c6data) emptyOccResponse
      (by decide) (by decide) (fun h => absurd h (by decide)) (by decide)⟩

/-- C7: `occ_renew_sensor` on a non-empty block: if the type's pointer is
live and the new record count equals the stored count for that type, the
state is returned completely unchanged (the existing array is reused, no
allocation or free happens); if the type was absent (NULL pointer) or the
count differs, the old array is freed and a zero-initialized array of
exactly `num` records is installed at `blocks[b]`. -/
theorem occ_renew_sensor_reuse_or_realloc (resp : OccResponse) (len num b : Nat)
    (t : SensorT) (hnum : num ≠ 0) (hlen : len ≠ 0) :
    (occ_get_sensor_by_type resp t = .livePtr →
      num = (blockAt resp (sensor_block_id resp t).toNat).num_of_sensors →
      occ_renew_sensor resp len num t b = (0, resp))
    ∧ (occ_get_sensor_by_type resp t = .nullPtr →
      occ_renew_sensor resp len num t b = (0, renew_fresh_alloc resp t b num))
    ∧ (occ_get_sensor_by_type resp t ≠ .nullPtr →
      num ≠ (blockAt resp (sensor_block_id resp t).toNat).num_of_sensors →
      occ_renew_sensor resp len num t b = (0, renew_fresh_alloc resp t b num)) := by
  refine ⟨?_, ?_, ?_⟩
  · intro hlive heq
    cases t <;>
      simp only [occ_renew_sensor, sensor_block_id] at hlive heq ⊢ <;>
      rw [if_neg (by simp [hnum, hlen])] <;>
      rw [if_neg (by simp [hlive, heq])]
  · intro hnull
    cases t <;>
      simp only [occ_renew_sensor, sensor_block_id, renew_fresh_alloc] at hnull ⊢ <;>
      rw [if_neg (by simp [hnum, hlen])] <;>
      rw [if_pos (Or.inl hnull)]
  · intro hnn hne
    cases t <;>
      simp only [occ_renew_sensor, sensor_block_id, renew_fresh_alloc] at hnn hne ⊢ <;>
      rw [if_neg (by simp [hnum, hlen])] <;>
      rw [if_pos (Or.inr hne)]

/-- C7 witness: against the snapshot holding one FREQ block with one live
record — same count 1 reuses the state verbatim; count 2 (or the empty
initial state) reallocates a zero-initialized array of the new size. -/
theorem occ_renew_sensor_reuse_or_realloc_witness :
    occ_renew_sensor c8state1 4 1 .freq 0 = (0, c8state1) ∧
    occ_renew_sensor emptyOccResponse 4 1 .freq 0 =
      (0, renew_fresh_alloc emptyOccResponse .freq 0 1) ∧
    occ_renew_sensor c8state1 4 2 .freq 0 = (0, renew_fresh_alloc c8state1 .freq 0 2) :=
  ⟨(occ_renew_sensor_reuse_or_realloc c8state1 4 1 0 .freq (by decide) (by decide)).1
      (by decide) (by decide),
   (occ_renew_sensor_reuse_or_realloc emptyOccResponse 4 1 0 .freq (by decide) (by decide)).2.1
      (by decide),
   (occ_renew_sensor_reuse_or_realloc c8state1 4 2 0 .freq (by decide) (by decide)).2.2
      (by decide) (by decide)⟩

/-- C8 (code bug): after parsing a response with one FREQ block of one
record, a second parse whose FREQ block declares zero records succeeds
(`0`) and frees the record array — but `freq_block_id` is left at `0`
rather than the `-1` absent sentinel, and `occ_get_sensor_by_type` then
hands back the freed, non-NULL pointer (`danglingPtr`): a subsequent
reader receives dangling storage instead of an explicit "absent"
result. -/
theorem occ_retired_sensor_dangling_index :
    (parse_occ_response (byteFn c8data1) emptyOccResponse).1 = 0 ∧
    c8state1.freq_block_id = 0 ∧
    (blockAt c8state1 0).sensor = .live [⟨5, 7⟩] ∧
    c8result.1 = 0 ∧
    c8result.2.freq_block_id = 0 ∧
    (blockAt c8result.2 0).sensor = .dangling ∧
    occ_get_sensor_by_type c8result.2 .freq = .danglingPtr :=
  ⟨by decide, by decide, by decide, by decide, by decide, by decide, by decide⟩

/-- C9 counterexample: interval 100; the refresh at jiffy 201 fails,
leaving `valid = false` and `last_updated = 201` — but the very next call
at jiffy 202, well within the interval, performs a fetch again (the
`!valid` disjunct of the guard re-triggers immediately), where the claim
says no fresh fetch may happen until the interval re-elapses. -/
theorem occ_update_device_refetch_within_interval_cex :
    c9step1.1 = -EINVAL ∧ c9step1.2.1 = true ∧
    c9d1.valid = false ∧ c9d1.last_updated = 201 ∧
    202 ≤ c9d1.last_updated + c9d1.update_interval ∧
    (occ_update_device fetchFail 202 c9d1).2.1 = true :=
  ⟨by decide, by decide, by decide, by decide, by decide, by decide⟩

/-- C9 amended: a failed fetch does leave `valid = false` and stamps
`last_updated` with the attempt time; but precisely because
`valid = false` satisfies the refresh guard, the next call performs a
fetch immediately, regardless of the elapsed time — the minimum interval
gates re-fetching only while `valid = true`. -/
theorem occ_update_device_invalid_forces_refetch
    (fetch : OccResponse → Int × OccResponse) (now : Nat) (d : OccDrvData) :
    ((occ_update_device fetch now d).2.1 = true → (fetch d.occ_resp).1 ≠ 0 →
        (occ_update_device fetch now d).2.2.valid = false ∧
        (occ_update_device fetch now d).2.2.last_updated = now)
    ∧ (d.valid = false → (occ_update_device fetch now d).2.1 = true)
    ∧ (d.valid = true → now ≤ d.last_updated + d.update_interval →
        occ_update_device fetch now d = (0, false, d)) := by
  refine ⟨?_, ?_, ?_⟩
  · intro hran hfail
    unfold occ_update_device at hran ⊢
    by_cases hg : now > d.last_updated + d.update_interval ∨ d.valid = false
    · simp [hg, hfail]
    · simp [hg] at hran
  · intro hv
    unfold occ_update_device
    simp [hv]
  · intro hv ht
    unfold occ_update_device
    rw [if_neg]
    simp [hv]
    omega

/-- C9 amended witness: instantiated at the failed refresh of
`c9step1` and the immediate re-fetch at jiffy 202. -/
theorem occ_update_device_invalid_forces_refetch_witness :
    (c9d1.valid = false ∧ c9d1.last_updated = 201) ∧
    (occ_update_device fetchFail 202 c9d1).2.1 = true ∧
    occ_update_device fetchFail 150 c9d0 = (0, false, c9d0) :=
  ⟨(occ_update_device_invalid_forces_refetch fetchFail 201 c9d0).1 (by decide) (by decide),
   (occ_update_device_invalid_forces_refetch fetchFail 202 c9d1).2.1 (by decide),
   (occ_update_device_invalid_forces_refetch fetchFail 150 c9d0).2.2 (by decide) (by decide)⟩

/-- C10: full teardown on a response state whose block list pointer is
NULL returns immediately with every field unchanged — the type indices
are not reset and the header is not cleared — while the complete reset to
the zeroed, all-sentinel state happens exactly when a block list is
present. -/
theorem deinit_occ_resp_buf_null_blocks_noop (p : OccResponse) :
    (p.blocks = none → deinit_occ_resp_buf p = p)
    ∧ (∀ bs, p.blocks = some bs → deinit_occ_resp_buf p = emptyOccResponse) := by
  constructor
  · intro h
    simp [deinit_occ_resp_buf, h]
  · intro bs h
    simp [deinit_occ_resp_buf, h]

/-- C10 witness: a torn-down-looking state with a stale index 5 and a
stale header block count 9 but no block list is returned unchanged (index
and header untouched); the same state with a block list present is fully
reset. -/
theorem deinit_occ_resp_buf_null_blocks_noop_witness :
    deinit_occ_resp_buf
        { emptyOccResponse with temp_block_id := 5
                                header := { emptyHeader with sensor_block_num := 9 } } =
      { emptyOccResponse with temp_block_id := 5
                              header := { emptyHeader with sensor_block_num := 9 } } ∧
    deinit_occ_resp_buf
        { emptyOccResponse with temp_block_id := 5
                                blocks := some [emptyBlock]
                                header := { emptyHeader with sensor_block_num := 9 } } =
      emptyOccResponse :=
  ⟨(deinit_occ_resp_buf_null_blocks_noop _).1 rfl,
   (deinit_occ_resp_buf_null_blocks_noop _).2 [emptyBlock] rfl⟩

end OccI2c
